import Mathlib

/-!
Verification of the translation-complexity scoring core.

Shallow embedding of src/translation_complexity (config.py, scorer.py,
metrics/readability.py, metrics/linguistic.py, metrics/translation.py).
Python floats are modelled as rationals; numpy calls that raise
(np.average with zero weight sum) and Python divisions that raise
ZeroDivisionError are modelled with Option, where none denotes the raised
exception. Python dicts of metric scores are modelled as association lists
(the keys of each category are fixed and distinct, so insertion order is
the list order).
-/

namespace TranslationComplexity

/-- np.mean over a list of values: sum divided by length. An empty list has
no well-defined rational mean (numpy yields nan), modelled as none. -/
def np_mean (l : List ℚ) : Option ℚ :=
  if l.isEmpty then none else some (l.sum / (l.length : ℚ))

/-- np.average with explicit weights: weighted sum divided by the weight sum.
numpy raises ZeroDivisionError when the weights sum to zero; modelled as
none. -/
def np_average (values weights : List ℚ) : Option ℚ :=
  if weights.sum = 0 then none
  else some ((List.zipWith (fun a b => a * b) values weights).sum / weights.sum)

/-- np.clip(x, lo, hi). -/
def np_clip (x lo hi : ℚ) : ℚ := min (max x lo) hi

/-- config.py: the Config dataclass. It is a plain dataclass: the generated
constructor stores the fields and performs no validation of any kind. -/
structure Config where
  READABILITY_WEIGHT : ℚ := 3/10
  LINGUISTIC_WEIGHT : ℚ := 4/10
  TRANSLATION_WEIGHT : ℚ := 3/10
  EMBEDDING_MODEL : String := "sentence-transformers/all-MiniLM-L6-v2"
  SPACY_MODEL : String := "en_core_web_sm"
  LOW_COMPLEXITY_THRESHOLD : ℚ := 1/4
  MEDIUM_COMPLEXITY_THRESHOLD : ℚ := 9/20
  HIGH_COMPLEXITY_THRESHOLD : ℚ := 13/20

/-- config.py Config.get_metric_weights: weights for the three categories,
listed in the order readability, linguistic, translation (the order in which
scorer.py reads the returned dict). -/
def Config.get_metric_weights (c : Config) : List ℚ :=
  [c.READABILITY_WEIGHT, c.LINGUISTIC_WEIGHT, c.TRANSLATION_WEIGHT]

/-- config.py Config.get_complexity_level: the if/elif/elif/else chain
comparing the score against the three thresholds. -/
def Config.get_complexity_level (c : Config) (score : ℚ) : String :=
  if score < c.LOW_COMPLEXITY_THRESHOLD then "low"
  else if score < c.MEDIUM_COMPLEXITY_THRESHOLD then "medium"
  else if score < c.HIGH_COMPLEXITY_THRESHOLD then "high"
  else "very_high"

/-- Helper for stating claims about caller-supplied thresholds: a Config
whose three thresholds are the given values and whose other fields keep
their dataclass defaults. -/
def mkThresholdConfig (low med high : ℚ) : Config :=
  { LOW_COMPLEXITY_THRESHOLD := low
    MEDIUM_COMPLEXITY_THRESHOLD := med
    HIGH_COMPLEXITY_THRESHOLD := high }

/-- metrics/readability.py: the five raw scores read from textstat on the
success path of ReadabilityMetrics.score, before any clamping. -/
structure RawReadability where
  flesch_kincaid : ℚ
  coleman_liau : ℚ
  gunning_fog : ℚ
  smog : ℚ
  flesch_reading_ease : ℚ

/-- metrics/readability.py: max(0, min(20, raw)), the clamp applied to each
grade-level raw score as it is stored into the scores dict. -/
def readability_raw_clamped_grade (x : ℚ) : ℚ := max 0 (min 20 x)

/-- metrics/readability.py: max(0, min(100, raw)), the clamp applied to the
flesch_reading_ease raw score as it is stored into the scores dict. -/
def readability_raw_clamped_ease (x : ℚ) : ℚ := max 0 (min 100 x)

/-- metrics/readability.py: the per-metric body of the normalization loop of
ReadabilityMetrics.score, selecting the rule by metric name. -/
def normalize_readability_metric (metric : String) (score : ℚ) : ℚ :=
  if metric = "flesch_reading_ease" then 1 - score / 120
  else score / 25

/-- metrics/readability.py: the zero-valued default dict returned by the
except branch of ReadabilityMetrics.score. -/
def readability_default_scores : List (String × ℚ) :=
  [("flesch_kincaid", 0), ("coleman_liau", 0), ("gunning_fog", 0),
   ("smog", 0), ("flesch_reading_ease", 0)]

/-- metrics/readability.py: the try-branch of ReadabilityMetrics.score:
clamp each raw textstat value into its natural range, then run the
normalization loop over the five entries in insertion order. -/
def readability_success_scores (r : RawReadability) : List (String × ℚ) :=
  [("flesch_kincaid",
      normalize_readability_metric "flesch_kincaid"
        (readability_raw_clamped_grade r.flesch_kincaid)),
   ("coleman_liau",
      normalize_readability_metric "coleman_liau"
        (readability_raw_clamped_grade r.coleman_liau)),
   ("gunning_fog",
      normalize_readability_metric "gunning_fog"
        (readability_raw_clamped_grade r.gunning_fog)),
   ("smog",
      normalize_readability_metric "smog"
        (readability_raw_clamped_grade r.smog)),
   ("flesch_reading_ease",
      normalize_readability_metric "flesch_reading_ease"
        (readability_raw_clamped_ease r.flesch_reading_ease))]

/-- metrics/readability.py ReadabilityMetrics.score. The underlying textstat
computation is an external collaborator that may raise; it is passed in as a
function returning Option, where none models the raised exception caught by
the except branch. -/
def ReadabilityMetrics.score
    (textstat_result : String → Option RawReadability) (text : String) :
    List (String × ℚ) :=
  match textstat_result text with
  | none => readability_default_scores
  | some r => readability_success_scores r

/-- metrics/linguistic.py: a spaCy token, as used by the linguistic metrics
(only its lowercased text and punctuation flag matter). -/
structure Token where
  text : String
  is_punct : Bool

/-- Python truthiness of the object returned by the doc.sents property. In
spaCy, doc.sents is a property whose getter is a generator function, so the
expression doc.sents evaluates to a generator object; a generator object is
always truthy in Python, regardless of whether it yields any sentences. -/
def py_truthy_generator (_sents : List (List Token)) : Bool := true

/-- metrics/linguistic.py LinguisticMetrics._calculate_avg_sentence_length:
guard (if not doc.sents: return 0.0) on the truthiness of the generator
object, then sum(len(sent) for sent in doc.sents) / len(list(doc.sents)).
The division raises ZeroDivisionError when there are no sentences; the
raised exception is modelled as none. -/
def calculate_avg_sentence_length (sents : List (List Token)) : Option ℚ :=
  if !(py_truthy_generator sents) then some 0
  else if sents.length = 0 then none
  else some (((sents.map List.length).sum : ℚ) / (sents.length : ℚ))

/-- metrics/linguistic.py: the normalization block at the end of
LinguisticMetrics.score, applied to the four raw scores. -/
def linguistic_normalized (raw_asl raw_ld raw_sc raw_vr : ℚ) :
    List (String × ℚ) :=
  [("avg_sentence_length", min (raw_asl / 30) 1),
   ("lexical_diversity", raw_ld * (6/10)),
   ("syntactic_complexity", min (raw_sc / 10) 1),
   ("vocabulary_rarity", raw_vr * (5/10))]

/-- metrics/translation.py: the final normalization of
_calculate_semantic_complexity: min(complexity / 10.0, 1.0) applied to the
embedding-norm value. -/
def semantic_complexity_normalized (complexity : ℚ) : ℚ :=
  min (complexity / 10) 1

/-- metrics/translation.py: the common_idioms set. -/
def common_idioms : List String :=
  ["kick the bucket", "raining cats and dogs", "piece of cake",
   "let the cat out of the bag", "hit the nail on the head"]

/-- metrics/translation.py: the idiom-counting loop of
_calculate_idiomatic_density: for i in range(len(words) - 2), count the
3-word phrases that are in common_idioms. -/
def count_idioms (words : List String) : Nat :=
  ((List.range (words.length - 2)).filter
    (fun i =>
      String.intercalate " " ((words.drop i).take 3) ∈ common_idioms)).length

/-- metrics/translation.py TranslationMetrics._calculate_idiomatic_density
on the already-split word list: 0.0 for an empty word list, otherwise
min(idiom_count / (len(words) / 3), 1.0). -/
def calculate_idiomatic_density (words : List String) : ℚ :=
  if words.length = 0 then 0
  else min ((count_idioms words : ℚ) / ((words.length : ℚ) / 3)) 1

/-- metrics/translation.py: the common_terms set of
_calculate_domain_specificity. -/
def common_terms : List String :=
  ["the", "be", "to", "of", "and", "a", "in", "that", "have", "i",
   "it", "for", "not", "on", "with", "he", "as", "you", "do", "at",
   "this", "but", "his", "by", "from", "they", "we", "say", "her", "she"]

/-- metrics/translation.py TranslationMetrics._calculate_domain_specificity
on the already-split word list: 0.0 for an empty word list, otherwise
len(domain_terms) / len(words) where domain_terms filters out common
terms. -/
def calculate_domain_specificity (words : List String) : ℚ :=
  if words.length = 0 then 0
  else ((words.filter (fun w => w ∉ common_terms)).length : ℚ) /
    (words.length : ℚ)

/-- scorer.py: the category-averaging step of _calculate_overall_score:
np.mean(list(scores.values())) for one category dict. -/
def category_score (s : List (String × ℚ)) : Option ℚ :=
  np_mean (s.map Prod.snd)

/-- scorer.py: the tail of _calculate_overall_score, starting from the three
category averages: np.clip(np.average(category_scores,
weights=category_weights), 0, 1). none models the ZeroDivisionError numpy
raises when the weights sum to zero. -/
def calculate_overall_from_averages (c : Config) (r l t : ℚ) : Option ℚ :=
  (np_average [r, l, t] c.get_metric_weights).map (fun x => np_clip x 0 1)

/-- scorer.py _calculate_overall_score on the three category dicts. -/
def calculate_overall_score (c : Config)
    (rs ls ts : List (String × ℚ)) : Option ℚ :=
  match category_score rs, category_score ls, category_score ts with
  | some r, some l, some t => calculate_overall_from_averages c r l t
  | _, _, _ => none

/-- scorer.py: the three metric providers held by the scorer. Each is a
deterministic function of the text (the underlying models are fixed at
scorer construction and read-only across calls). -/
structure Providers where
  readability : String → List (String × ℚ)
  linguistic : String → List (String × ℚ)
  translation : String → List (String × ℚ)

/-- scorer.py TranslationComplexityScorer.score_text: collect the three
category dicts, merge them in order (readability, linguistic, translation:
the keys are pairwise distinct so dict update is list append), and add the
overall_complexity key. none models a raised exception anywhere in the
call. -/
def score_text (c : Config) (p : Providers) (text : String) :
    Option (List (String × ℚ)) :=
  let rs := p.readability text
  let ls := p.linguistic text
  let ts := p.translation text
  (calculate_overall_score c rs ls ts).map
    (fun overall => rs ++ ls ++ ts ++ [("overall_complexity", overall)])

/-- scorer.py TranslationComplexityScorer.batch_score: the list
comprehension [self.score_text(text) for text in texts]. -/
def batch_score (c : Config) (p : Providers) (texts : List String) :
    List (Option (List (String × ℚ))) :=
  texts.map (score_text c p)

/-- C1: for every triple of category averages and every weight triple with
positive total (which includes the configured triple 0.3, 0.4, 0.3), the
overall complexity score produced by _calculate_overall_score is defined and
lies in [0,1] inclusive, even when the raw weighted average of the category
scores would exceed 1 or be negative, because of the final np.clip. -/
theorem overall_score_clamped (c : Config) (r l t : ℚ)
    (h : 0 < c.READABILITY_WEIGHT + c.LINGUISTIC_WEIGHT +
      c.TRANSLATION_WEIGHT) :
    ∀ v : ℚ, calculate_overall_from_averages c r l t = some v →
      0 ≤ v ∧ v ≤ 1 := by
  intro v hv
  have hsum : c.get_metric_weights.sum ≠ 0 := by
    simp only [Config.get_metric_weights, List.sum_cons, List.sum_nil,
      add_zero]
    intro hz
    rw [← add_assoc] at hz
    exact absurd hz (ne_of_gt h)
  unfold calculate_overall_from_averages np_average at hv
  rw [if_neg hsum] at hv
  simp only [Option.map_some', Option.some.injEq] at hv
  subst hv
  exact ⟨le_min (le_max_right _ _) (by norm_num), min_le_right _ _⟩

/-- Witness for C1 at the configured weights (0.3, 0.4, 0.3) and category
averages (5, 5, 5), whose raw weighted average is 5 > 1: the clamped result
is exactly 1, which the theorem confirms lies in [0,1]. -/
theorem overall_score_clamped_witness :
    calculate_overall_from_averages {} 5 5 5 = some 1 ∧
    (0 ≤ (1 : ℚ) ∧ (1 : ℚ) ≤ 1) :=
  ⟨by norm_num [calculate_overall_from_averages, np_average, np_clip,
      Config.get_metric_weights],
   overall_score_clamped {} 5 5 5 (by norm_num) 1
     (by norm_num [calculate_overall_from_averages, np_average, np_clip,
        Config.get_metric_weights])⟩

/-- C2: for every score and every ascending threshold triple,
get_complexity_level returns "low" iff s < low, "medium" iff
low ≤ s < medium, "high" iff medium ≤ s < high, and "very_high" iff
s ≥ high; in particular, with the default thresholds (0.25, 0.45, 0.65):
classify(0.0) = "low", classify(0.25) = "medium", classify(0.449) =
"medium", classify(0.45) = "high", classify(1.0) = "very_high". The
function is total with no failure mode: every score falls into exactly one
of the four labels. -/
theorem get_complexity_level_spec (low med high s : ℚ)
    (h1 : low ≤ med) (h2 : med ≤ high) :
    (((mkThresholdConfig low med high).get_complexity_level s = "low" ↔
        s < low) ∧
      ((mkThresholdConfig low med high).get_complexity_level s = "medium" ↔
        low ≤ s ∧ s < med) ∧
      ((mkThresholdConfig low med high).get_complexity_level s = "high" ↔
        med ≤ s ∧ s < high) ∧
      ((mkThresholdConfig low med high).get_complexity_level s =
          "very_high" ↔ high ≤ s)) ∧
    (Config.get_complexity_level {} 0 = "low" ∧
      Config.get_complexity_level {} (1/4) = "medium" ∧
      Config.get_complexity_level {} (449/1000) = "medium" ∧
      Config.get_complexity_level {} (9/20) = "high" ∧
      Config.get_complexity_level {} 1 = "very_high") := by
  constructor
  · simp only [mkThresholdConfig, Config.get_complexity_level]
    rcases lt_or_le s low with hl | hl
    · rw [if_pos hl]
      exact ⟨iff_of_true rfl hl,
        iff_of_false (by decide)
          (by rintro ⟨a, _⟩; exact absurd hl (not_lt.mpr a)),
        iff_of_false (by decide)
          (by rintro ⟨a, _⟩; exact absurd hl (not_lt.mpr (h1.trans a))),
        iff_of_false (by decide)
          (fun a => absurd hl (not_lt.mpr ((h1.trans h2).trans a)))⟩
    · rcases lt_or_le s med with hm | hm
      · rw [if_neg (not_lt.mpr hl), if_pos hm]
        exact ⟨iff_of_false (by decide) (not_lt.mpr hl),
          iff_of_true rfl ⟨hl, hm⟩,
          iff_of_false (by decide)
            (by rintro ⟨a, _⟩; exact absurd hm (not_lt.mpr a)),
          iff_of_false (by decide)
            (fun a => absurd hm (not_lt.mpr (h2.trans a)))⟩
      · rcases lt_or_le s high with hh | hh
        · rw [if_neg (not_lt.mpr hl), if_neg (not_lt.mpr hm), if_pos hh]
          exact ⟨iff_of_false (by decide) (not_lt.mpr hl),
            iff_of_false (by decide)
              (by rintro ⟨_, b⟩; exact absurd b (not_lt.mpr hm)),
            iff_of_true rfl ⟨hm, hh⟩,
            iff_of_false (by decide) (fun a => absurd hh (not_lt.mpr a))⟩
        · rw [if_neg (not_lt.mpr hl), if_neg (not_lt.mpr hm),
            if_neg (not_lt.mpr hh)]
          exact ⟨iff_of_false (by decide) (not_lt.mpr hl),
            iff_of_false (by decide)
              (by rintro ⟨_, b⟩; exact absurd b (not_lt.mpr hm)),
            iff_of_false (by decide)
              (by rintro ⟨_, b⟩; exact absurd b (not_lt.mpr hh)),
            iff_of_true rfl hh⟩
  · refine ⟨?_, ?_, ?_, ?_, ?_⟩ <;>
      norm_num [Config.get_complexity_level]

/-- Witness for C2 at the default ascending thresholds (0.25, 0.45, 0.65)
and score 0.3, which the theorem classifies as "medium". -/
theorem get_complexity_level_spec_witness :
    (mkThresholdConfig (1/4) (9/20) (13/20)).get_complexity_level (3/10) =
      "medium" :=
  ((get_complexity_level_spec (1/4) (9/20) (13/20) (3/10)
      (by norm_num) (by norm_num)).1.2.1).mpr (by norm_num)

/-- C3: for every non-empty NormalizedMetricSet, the category score computed
by np.mean in _calculate_overall_score equals the arithmetic mean (sum
divided by count) of all values in the set, each metric weighted equally;
in particular the set with values 0.2, 0.4, 0.6 aggregates to exactly
0.4. -/
theorem category_score_is_mean (s : List (String × ℚ)) (h : s ≠ []) :
    category_score s =
      some ((s.map Prod.snd).sum / ((s.map Prod.snd).length : ℚ)) ∧
    category_score [("a", 1/5), ("b", 2/5), ("c", 3/5)] = some (2/5) := by
  constructor
  · have hne : (s.map Prod.snd).isEmpty = false := by
      rcases s with _ | ⟨x, xs⟩
      · exact absurd rfl h
      · rfl
    simp [category_score, np_mean, hne]
  · norm_num [category_score, np_mean]

/-- Witness for C3 at the concrete three-element set with values
0.2, 0.4, 0.6: it is non-empty and aggregates to exactly 0.4. -/
theorem category_score_is_mean_witness :
    category_score [("a", 1/5), ("b", 2/5), ("c", 3/5)] = some (2/5) :=
  (category_score_is_mean [("a", 1/5), ("b", 2/5), ("c", 3/5)]
    (by decide)).2

/-- C4: the readability normalization loop maps each of the four
grade-level metrics to raw/25 and the reading-ease metric to 1 - raw/120,
without clamping the result in either case; consequently a raw grade-level
value above 25 would normalize to a value above 1. -/
theorem normalize_readability_rules (raw : ℚ) :
    normalize_readability_metric "flesch_kincaid" raw = raw / 25 ∧
    normalize_readability_metric "coleman_liau" raw = raw / 25 ∧
    normalize_readability_metric "gunning_fog" raw = raw / 25 ∧
    normalize_readability_metric "smog" raw = raw / 25 ∧
    normalize_readability_metric "flesch_reading_ease" raw =
      1 - raw / 120 ∧
    (25 < raw → 1 < normalize_readability_metric "flesch_kincaid" raw) := by
  refine ⟨rfl, rfl, rfl, rfl, rfl, fun h => ?_⟩
  show 1 < raw / 25
  rw [lt_div_iff₀ (by norm_num : (0:ℚ) < 25)]
  linarith

/-- Witness for C4 at the raw value 30 > 25: the grade-level rule yields
30/25 = 1.2, which is above 1. -/
theorem normalize_readability_rules_witness :
    normalize_readability_metric "flesch_kincaid" 30 = 30 / 25 ∧
    (1 : ℚ) < normalize_readability_metric "flesch_kincaid" 30 :=
  ⟨(normalize_readability_rules 30).1,
   (normalize_readability_rules 30).2.2.2.2.2 (by norm_num)⟩

/-- C5: the linguistic normalization block maps avg_sentence_length to
min(raw/30, 1), lexical_diversity to raw * 0.6 unclamped,
syntactic_complexity to min(raw/10, 1), vocabulary_rarity to raw * 0.5
unclamped; the semantic metric is normalized to min(raw/10, 1); and the
idiomatic_density and domain_specificity values placed unchanged into the
translation score dict lie in [0,1] by construction of their ratio
formulas, for every word list. -/
theorem normalization_rules_and_ratio_bounds
    (asl ld sc vr comp : ℚ) (words : List String) :
    linguistic_normalized asl ld sc vr =
      [("avg_sentence_length", min (asl / 30) 1),
       ("lexical_diversity", ld * (6/10)),
       ("syntactic_complexity", min (sc / 10) 1),
       ("vocabulary_rarity", vr * (5/10))] ∧
    semantic_complexity_normalized comp = min (comp / 10) 1 ∧
    (0 ≤ calculate_idiomatic_density words ∧
      calculate_idiomatic_density words ≤ 1) ∧
    (0 ≤ calculate_domain_specificity words ∧
      calculate_domain_specificity words ≤ 1) := by
  refine ⟨rfl, rfl, ?_, ?_⟩
  · unfold calculate_idiomatic_density
    split_ifs with hlen
    · norm_num
    · have hpos : (0:ℚ) < (words.length : ℚ) := by
        exact_mod_cast Nat.pos_of_ne_zero hlen
      constructor
      · refine le_min ?_ (by norm_num)
        apply div_nonneg (Nat.cast_nonneg _)
        positivity
      · exact min_le_right _ _
  · unfold calculate_domain_specificity
    split_ifs with hlen
    · norm_num
    · have hpos : (0:ℚ) < (words.length : ℚ) := by
        exact_mod_cast Nat.pos_of_ne_zero hlen
      constructor
      · exact div_nonneg (Nat.cast_nonneg _) (Nat.cast_nonneg _)
      · rw [div_le_one hpos]
        exact_mod_cast List.length_filter_le _ _

/-- C6: batch_score is the index-for-index image of score_text: the result
list has the same length as the input list and its i-th element equals
score_text applied to the i-th input text, with no reordering, no
deduplication, and no cross-text state (score_text depends only on the
configuration, the fixed providers, and the single text). -/
theorem batch_score_refines_score_text
    (c : Config) (p : Providers) (texts : List String) :
    (batch_score c p texts).length = texts.length ∧
    ∀ i : Nat, (batch_score c p texts)[i]? =
      (texts[i]?).map (score_text c p) := by
  refine ⟨by simp [batch_score], fun i => ?_⟩
  simp [batch_score]

/-- config.py: the Config value built by
Config(READABILITY_WEIGHT=0.0, LINGUISTIC_WEIGHT=0.0,
TRANSLATION_WEIGHT=0.0). The dataclass has no __post_init__ and no
validation of any kind, so this construction succeeds and simply stores
the fields. -/
def zeroWeightConfig : Config :=
  { READABILITY_WEIGHT := 0
    LINGUISTIC_WEIGHT := 0
    TRANSLATION_WEIGHT := 0 }

/-- C7 counterexample: constructing a Config with all three weights zero
does not fail: the constructor stores the zero weights verbatim and yields
a usable Config value, and the zero-total-weight error instead appears
later, at scoring time, where np.average raises ZeroDivisionError
(modelled: the overall score of the categories (0.5, 0.5, 0.5) is none
rather than a number). This refutes the claim that the error is raised at
configuration-construction time. -/
theorem config_zero_weights_not_rejected :
    (zeroWeightConfig.READABILITY_WEIGHT = 0 ∧
      zeroWeightConfig.LINGUISTIC_WEIGHT = 0 ∧
      zeroWeightConfig.TRANSLATION_WEIGHT = 0) ∧
    calculate_overall_from_averages zeroWeightConfig (1/2) (1/2) (1/2) =
      none := by
  refine ⟨⟨rfl, rfl, rfl⟩, ?_⟩
  norm_num [calculate_overall_from_averages, np_average,
    Config.get_metric_weights, zeroWeightConfig]

/-- C7 amended: constructing a Configuration whose three category weights
are all zero succeeds with no validation at construction time; the
zero-total-weight error surfaces only later, during a scoring call, where
the weighted average raises a division-by-zero (modelled: the overall
score is none for every category triple). -/
theorem config_zero_weights_error_deferred_to_scoring (r l t : ℚ) :
    calculate_overall_from_averages zeroWeightConfig r l t = none := by
  norm_num [calculate_overall_from_averages, np_average,
    Config.get_metric_weights, zeroWeightConfig]

/-- Witness for the amended C7 at the category averages (0.5, 0.5, 0.5). -/
theorem config_zero_weights_error_deferred_to_scoring_witness :
    calculate_overall_from_averages zeroWeightConfig (1/2) (1/2) (1/2) =
      none :=
  config_zero_weights_error_deferred_to_scoring (1/2) (1/2) (1/2)

/-- C8: on an empty document (zero sentences, as produced for the empty
text ""), _calculate_avg_sentence_length raises ZeroDivisionError
(modelled as none) instead of returning 0.0: the guard
(if not doc.sents: return 0.0) tests the truthiness of the generator
object returned by the doc.sents property, which is always true, so the
guard never fires and the division by len(list(doc.sents)) = 0 is
reached. -/
theorem avg_sentence_length_empty_doc_raises :
    py_truthy_generator ([] : List (List Token)) = true ∧
    calculate_avg_sentence_length ([] : List (List Token)) = none :=
  ⟨rfl, rfl⟩

/-- C9: whenever the underlying textstat computation raises (modelled as
the collaborator returning none), ReadabilityMetrics.score returns the
all-zero default mapping and never propagates the exception. -/
theorem readability_score_default_on_failure
    (textstat_result : String → Option RawReadability) (text : String)
    (h : textstat_result text = none) :
    ReadabilityMetrics.score textstat_result text =
      [("flesch_kincaid", 0), ("coleman_liau", 0), ("gunning_fog", 0),
       ("smog", 0), ("flesch_reading_ease", 0)] := by
  unfold ReadabilityMetrics.score
  rw [h]
  rfl

/-- Witness for C9 with a textstat collaborator that always raises, on the
empty text. -/
theorem readability_score_default_on_failure_witness :
    ReadabilityMetrics.score (fun _ => none) "" =
      [("flesch_kincaid", 0), ("coleman_liau", 0), ("gunning_fog", 0),
       ("smog", 0), ("flesch_reading_ease", 0)] :=
  readability_score_default_on_failure (fun _ => none) "" rfl

/-- C10: on the success path of ReadabilityMetrics.score, each raw value is
clamped before normalization, so every normalized readability metric lies
in [0,1] even though the normalization loop itself does not clamp: each
grade-level raw is clamped to [0,20], putting its normalized value raw/25
in [0, 0.8], and flesch_reading_ease is clamped to [0,100], putting its
normalized value 1 - raw/120 in [1/6, 1]; in particular that value is
never 0. -/
theorem readability_success_bounds (r : RawReadability) :
    readability_success_scores r =
      [("flesch_kincaid",
          readability_raw_clamped_grade r.flesch_kincaid / 25),
       ("coleman_liau",
          readability_raw_clamped_grade r.coleman_liau / 25),
       ("gunning_fog",
          readability_raw_clamped_grade r.gunning_fog / 25),
       ("smog",
          readability_raw_clamped_grade r.smog / 25),
       ("flesch_reading_ease",
          1 - readability_raw_clamped_ease r.flesch_reading_ease / 120)] ∧
    (∀ x : ℚ, 0 ≤ readability_raw_clamped_grade x / 25 ∧
      readability_raw_clamped_grade x / 25 ≤ 4/5) ∧
    (∀ x : ℚ, 1/6 ≤ 1 - readability_raw_clamped_ease x / 120 ∧
      1 - readability_raw_clamped_ease x / 120 ≤ 1) ∧
    (∀ x : ℚ, 0 < 1 - readability_raw_clamped_ease x / 120) := by
  have hg : ∀ x : ℚ, 0 ≤ readability_raw_clamped_grade x ∧
      readability_raw_clamped_grade x ≤ 20 := by
    intro x
    unfold readability_raw_clamped_grade
    exact ⟨le_max_left 0 _, max_le (by norm_num) (min_le_left _ _)⟩
  have he : ∀ x : ℚ, 0 ≤ readability_raw_clamped_ease x ∧
      readability_raw_clamped_ease x ≤ 100 := by
    intro x
    unfold readability_raw_clamped_ease
    exact ⟨le_max_left 0 _, max_le (by norm_num) (min_le_left _ _)⟩
  refine ⟨rfl, fun x => ⟨?_, ?_⟩, fun x => ⟨?_, ?_⟩, fun x => ?_⟩
  · exact div_nonneg (hg x).1 (by norm_num)
  · rw [div_le_iff₀ (by norm_num : (0:ℚ) < 25)]
    have := (hg x).2
    linarith
  · have := (he x).2
    linarith
  · have := (he x).1
    linarith
  · have := (he x).2
    linarith

end TranslationComplexity
